import Mathlib

set_option maxRecDepth 1000000

/-!
Verification of the HCP Terraform run-task validator Lambda
(`examples/01_run_task_resources/lambda/main.py`).

The development embeds the Python source shallowly:
* SHA-512 and HMAC-SHA512 (the `hashlib`/`hmac` calls in `verify_hmac`)
  are implemented over `Nat` with explicit reduction modulo `2^64`.
* `json.loads` / `json.dumps` are modelled by an executable parser and
  printer over an inductive `Json` type (Python `dict`s become ordered
  association lists; numeric literals are kept as their lexemes since the
  handler never consumes a JSON number).
* The genuinely external effects — parameter-store secret retrieval
  (`get_parameter`), the plan fetch (`get_plan_json`), ISO-8601 timestamp
  parsing (`datetime.fromisoformat`) and the result callback
  (`notify_result`) — are supplied through a `Ctx` of oracles, and the
  handler returns a `Trace` recording which of them it invoked and with
  which arguments.
* Python exceptions are `Except String`; the string is `str(e)`, which is
  the only part of an exception the handler consumes (in its 500 body).
-/

/-! ### Bytes and 64-bit words as `Nat` -/

/-- Word size for SHA-512 arithmetic. -/
def w64 : Nat := 2 ^ 64

/-- Addition modulo `2^64`. -/
def add64 (a b : Nat) : Nat := (a + b) % w64

/-- Right rotation of a 64-bit word. -/
def rotr64 (x n : Nat) : Nat := ((x >>> n) ||| (x <<< (64 - n))) % w64

/-- 64-bit bitwise complement. -/
def not64 (x : Nat) : Nat := x ^^^ (w64 - 1)

/-- UTF-8 encoding of a single character, as `Nat` bytes.
Models Python's `str.encode()` per code point. -/
def utf8Char (c : Char) : List Nat :=
  let n := c.toNat
  if n < 0x80 then [n]
  else if n < 0x800 then
    [0xC0 ||| (n >>> 6), 0x80 ||| (n &&& 0x3F)]
  else if n < 0x10000 then
    [0xE0 ||| (n >>> 12), 0x80 ||| ((n >>> 6) &&& 0x3F), 0x80 ||| (n &&& 0x3F)]
  else
    [0xF0 ||| (n >>> 18), 0x80 ||| ((n >>> 12) &&& 0x3F),
     0x80 ||| ((n >>> 6) &&& 0x3F), 0x80 ||| (n &&& 0x3F)]

/-- UTF-8 encoding of a string (Python's `s.encode()`). -/
def strBytes (s : String) : List Nat := s.data.flatMap utf8Char

/-! ### SHA-512 -/

/-- The 80 SHA-512 round constants (FIPS 180-4). -/
def sha512K : List Nat := [
  4794697086780616226, 8158064640168781261, 13096744586834688815, 16840607885511220156,
  4131703408338449720, 6480981068601479193, 10538285296894168987, 12329834152419229976,
  15566598209576043074, 1334009975649890238, 2608012711638119052, 6128411473006802146,
  8268148722764581231, 9286055187155687089, 11230858885718282805, 13951009754708518548,
  16472876342353939154, 17275323862435702243, 1135362057144423861, 2597628984639134821,
  3308224258029322869, 5365058923640841347, 6679025012923562964, 8573033837759648693,
  10970295158949994411, 12119686244451234320, 12683024718118986047, 13788192230050041572,
  14330467153632333762, 15395433587784984357, 489312712824947311, 1452737877330783856,
  2861767655752347644, 3322285676063803686, 5560940570517711597, 5996557281743188959,
  7280758554555802590, 8532644243296465576, 9350256976987008742, 10552545826968843579,
  11727347734174303076, 12113106623233404929, 14000437183269869457, 14369950271660146224,
  15101387698204529176, 15463397548674623760, 17586052441742319658, 1182934255886127544,
  1847814050463011016, 2177327727835720531, 2830643537854262169, 3796741975233480872,
  4115178125766777443, 5681478168544905931, 6601373596472566643, 7507060721942968483,
  8399075790359081724, 8693463985226723168, 9568029438360202098, 10144078919501101548,
  10430055236837252648, 11840083180663258601, 13761210420658862357, 14299343276471374635,
  14566680578165727644, 15097957966210449927, 16922976911328602910, 17689382322260857208,
  500013540394364858, 748580250866718886, 1242879168328830382, 1977374033974150939,
  2944078676154940804, 3659926193048069267, 4368137639120453308, 4836135668995329356,
  5532061633213252278, 6448918945643986474, 6902733635092675308, 7801388544844847127]

/-- The SHA-512 initial hash value (FIPS 180-4). -/
def sha512H0 : List Nat :=
  [7640891576956012808, 13503953896175478587, 4354685564936845355, 11912009170470909681,
   5840696475078001361, 11170449401992604703, 2270897969802886507, 6620516959819538809]

/-- `Ch(x, y, z)` from FIPS 180-4. -/
def shaCh (x y z : Nat) : Nat := (x &&& y) ^^^ (not64 x &&& z)

/-- `Maj(x, y, z)` from FIPS 180-4. -/
def shaMaj (x y z : Nat) : Nat := (x &&& y) ^^^ (x &&& z) ^^^ (y &&& z)

/-- `Σ0` from FIPS 180-4. -/
def bigSigma0 (x : Nat) : Nat := rotr64 x 28 ^^^ rotr64 x 34 ^^^ rotr64 x 39

/-- `Σ1` from FIPS 180-4. -/
def bigSigma1 (x : Nat) : Nat := rotr64 x 14 ^^^ rotr64 x 18 ^^^ rotr64 x 41

/-- `σ0` from FIPS 180-4. -/
def smallSigma0 (x : Nat) : Nat := rotr64 x 1 ^^^ rotr64 x 8 ^^^ (x >>> 7)

/-- `σ1` from FIPS 180-4. -/
def smallSigma1 (x : Nat) : Nat := rotr64 x 19 ^^^ rotr64 x 61 ^^^ (x >>> 6)

/-- Big-endian assembly of a list of bytes into one `Nat` word. -/
def beWord : List Nat → Nat
  | [] => 0
  | b :: bs => b <<< (8 * bs.length) + beWord bs

/-- Split a byte list into 8-byte big-endian 64-bit words. -/
def bytesToWords : List Nat → List Nat
  | b0 :: b1 :: b2 :: b3 :: b4 :: b5 :: b6 :: b7 :: rest =>
      beWord [b0, b1, b2, b3, b4, b5, b6, b7] :: bytesToWords rest
  | _ => []

/-- Big-endian bytes of a word, `k` bytes wide. -/
def wordToBytes (k x : Nat) : List Nat :=
  match k with
  | 0 => []
  | k + 1 => ((x >>> (8 * k)) &&& 0xFF) :: wordToBytes k x

/-- SHA-512 message padding: append `0x80`, zeros to 112 mod 128, then the
bit length as a 16-byte big-endian integer. -/
def sha512Pad (msg : List Nat) : List Nat :=
  let l := msg.length
  let zeros := (128 + 111 - l % 128) % 128
  msg ++ [0x80] ++ List.replicate zeros 0 ++ wordToBytes 16 (8 * l)

/-- Message schedule `W[0..79]` for one block, extended front-to-back. -/
def sha512Schedule : Nat → List Nat → List Nat
  | 0, acc => acc
  | n + 1, acc =>
      let t := acc.length
      let w := add64 (add64 (smallSigma1 (acc.getD (t - 2) 0)) (acc.getD (t - 7) 0))
                     (add64 (smallSigma0 (acc.getD (t - 15) 0)) (acc.getD (t - 16) 0))
      sha512Schedule n (acc ++ [w])

/-- One round of the SHA-512 compression function. -/
def sha512Round (st : List Nat) (kw : Nat × Nat) : List Nat :=
  match st with
  | [a, b, c, d, e, f, g, h] =>
      let t1 := add64 (add64 (add64 h (bigSigma1 e)) (add64 (shaCh e f g) kw.1)) kw.2
      let t2 := add64 (bigSigma0 a) (shaMaj a b c)
      [add64 t1 t2, a, b, c, add64 d t1, e, f, g]
  | st => st

/-- Compress one 128-byte block into the running hash value. -/
def sha512Block (hv : List Nat) (block : List Nat) : List Nat :=
  let w := sha512Schedule 64 (bytesToWords block)
  let st := (sha512K.zip w).foldl sha512Round hv
  (hv.zip st).map fun p => add64 p.1 p.2

/-- Split a padded message into 128-byte blocks (fuelled recursion). -/
def chunks128 : Nat → List Nat → List (List Nat)
  | 0, _ => []
  | _, [] => []
  | n + 1, bs => bs.take 128 :: chunks128 n (bs.drop 128)

/-- SHA-512 of a byte list, as the 64-byte digest. -/
def sha512 (msg : List Nat) : List Nat :=
  let padded := sha512Pad msg
  let hv := (chunks128 (padded.length / 128 + 1) padded).foldl sha512Block sha512H0
  hv.flatMap (wordToBytes 8)

/-- Lowercase hex character for a value below 16. -/
def hexChar (n : Nat) : Char :=
  if n < 10 then Char.ofNat (48 + n) else Char.ofNat (87 + n)

/-- Lowercase hex rendering of a byte list (Python's `.hexdigest()`). -/
def bytesToHex (bs : List Nat) : String :=
  String.mk (bs.flatMap fun b => [hexChar (b >>> 4), hexChar (b &&& 0xF)])

/-- HMAC-SHA512 of a message under a key (RFC 2104 with SHA-512,
block size 128 bytes), as used by `hmac.new(..., hashlib.sha512)`. -/
def hmacSha512 (key msg : List Nat) : List Nat :=
  let k0 := if key.length > 128 then sha512 key else key
  let kp := k0 ++ List.replicate (128 - k0.length) 0
  let ipad := kp.map (· ^^^ 0x36)
  let opad := kp.map (· ^^^ 0x5C)
  sha512 (opad ++ sha512 (ipad ++ msg))

/-- The hex HMAC-SHA512 digest of `payload` under `secret`, both strings:
`hmac.new(secret.encode(), payload.encode(), hashlib.sha512).hexdigest()`. -/
def hmacHex (secret payload : String) : String :=
  bytesToHex (hmacSha512 (strBytes secret) (strBytes payload))

/-- Python's ASCII test on a `str` (all code points below 128).
`hmac.compare_digest` accepts `str` arguments only when both are ASCII. -/
def strIsAscii (s : String) : Bool := s.data.all fun c => c.toNat < 128

/--
`verify_hmac` (main.py lines 56-72):
computes `hmac.new(secret.encode(), payload.encode(), hashlib.sha512).hexdigest()`
and returns `hmac.compare_digest(computed, signature)`.

`compare_digest` on two `str` arguments returns whether they are equal,
but raises `TypeError` when either string is non-ASCII; the computed hex
digest is always ASCII, so only the signature can trigger this. The
`Except` layer carries that exception (`str(e)` as in CPython).
-/
def verify_hmac (payload signature secret : String) : Except String Bool :=
  let computed := hmacHex secret payload
  if strIsAscii signature then
    .ok (computed == signature)
  else
    .error "comparing strings with non-ASCII characters is not supported"

/-! ### JSON values (`json.loads` / `json.dumps`)

Python `dict`s are ordered association lists (insertion order preserved;
a duplicate key in a JSON text overwrites the earlier binding, so lookups
take the *last* binding). A numeric literal is kept as its lexeme: the
handler never consumes a JSON number, so no numeric semantics is needed. -/

inductive Json where
  | null
  | bool (b : Bool)
  | num (lexeme : String)
  | str (s : String)
  | arr (elems : List Json)
  | obj (fields : List (String × Json))

/-- Last-binding lookup in an ordered association list, matching a Python
`dict` built by inserting the pairs in order (later keys overwrite). -/
def lookupLast {α : Type} : List (String × α) → String → Option α
  | [], _ => none
  | (k', v) :: rest, k =>
      match lookupLast rest k with
      | some r => some r
      | none => if k' == k then some v else none

/-- A single-quote character, used to build Python exception texts such as
`str(KeyError("body"))`. -/
def pyQuote : String := String.mk [Char.ofNat 39]

/-- JSON whitespace accepted by `json.loads`. -/
def isJsonWs (c : Char) : Bool := c == ' ' || c == '\t' || c == '\n' || c == '\r'

/-- Drop leading JSON whitespace. -/
def skipWs : List Char → List Char
  | [] => []
  | c :: cs => if isJsonWs c then skipWs cs else c :: cs

/-- Hex digit value. -/
def hexVal (c : Char) : Option Nat :=
  if '0' ≤ c && c ≤ '9' then some (c.toNat - 48)
  else if 'a' ≤ c && c ≤ 'f' then some (c.toNat - 87)
  else if 'A' ≤ c && c ≤ 'F' then some (c.toNat - 55)
  else none

/-- Parse the body of a JSON string literal (after the opening quote),
accumulating characters until the closing quote. Escapes follow
`json.loads`; a `\uXXXX` high/low surrogate pair is combined into one
code point (a lone surrogate, which Python would keep, is not
representable in a Lean `Char` and fails instead — the handler never
meets one). Control characters below `0x20` are rejected as in strict
mode. -/
def parseStr : Nat → List Char → List Char → Option (String × List Char)
  | 0, _, _ => none
  | _ + 1, acc, '"' :: rest => some (String.mk acc.reverse, rest)
  | fuel + 1, acc, '\\' :: e :: rest =>
      match e with
      | '"' => parseStr fuel ('"' :: acc) rest
      | '\\' => parseStr fuel ('\\' :: acc) rest
      | '/' => parseStr fuel ('/' :: acc) rest
      | 'b' => parseStr fuel (Char.ofNat 8 :: acc) rest
      | 'f' => parseStr fuel (Char.ofNat 12 :: acc) rest
      | 'n' => parseStr fuel ('\n' :: acc) rest
      | 'r' => parseStr fuel ('\r' :: acc) rest
      | 't' => parseStr fuel ('\t' :: acc) rest
      | 'u' =>
          match rest with
          | h3 :: h2 :: h1 :: h0 :: rest' =>
              match hexVal h3, hexVal h2, hexVal h1, hexVal h0 with
              | some a, some b, some c, some d =>
                  let n := ((a * 16 + b) * 16 + c) * 16 + d
                  if 0xD800 ≤ n && n < 0xDC00 then
                    match rest' with
                    | '\\' :: 'u' :: g3 :: g2 :: g1 :: g0 :: rest2 =>
                        match hexVal g3, hexVal g2, hexVal g1, hexVal g0 with
                        | some a', some b', some c', some d' =>
                            let n' := ((a' * 16 + b') * 16 + c') * 16 + d'
                            if 0xDC00 ≤ n' && n' < 0xE000 then
                              let cp := 0x10000 + (n - 0xD800) * 0x400 + (n' - 0xDC00)
                              parseStr fuel (Char.ofNat cp :: acc) rest2
                            else none
                        | _, _, _, _ => none
                    | _ => none
                  else if 0xDC00 ≤ n && n < 0xE000 then none
                  else parseStr fuel (Char.ofNat n :: acc) rest'
              | _, _, _, _ => none
          | _ => none
      | _ => none
  | fuel + 1, acc, c :: rest =>
      if c.toNat < 0x20 then none else parseStr fuel (c :: acc) rest
  | _, _, [] => none

/-- Digit test. -/
def isDigit (c : Char) : Bool := '0' ≤ c && c ≤ '9'

/-- Take a maximal run of decimal digits. -/
def takeDigits : List Char → List Char × List Char
  | [] => ([], [])
  | c :: cs =>
      if isDigit c then
        let (ds, rest) := takeDigits cs
        (c :: ds, rest)
      else ([], c :: cs)

/-- Parse a JSON number lexeme per the RFC 8259 grammar, returning the
lexeme and the remaining input. -/
def parseNum (input : List Char) : Option (String × List Char) :=
  let (sign, s1) :=
    match input with
    | '-' :: cs => (['-'], cs)
    | cs => (([] : List Char), cs)
  match s1 with
  | [] => none
  | c :: cs =>
      if c == '0' then
        let (frac, s2) := parseFracExp cs
        some (String.mk (sign ++ ['0'] ++ frac), s2)
      else if isDigit c then
        let (ds, s2) := takeDigits cs
        let (frac, s3) := parseFracExp s2
        some (String.mk (sign ++ (c :: ds) ++ frac), s3)
      else none
where
  /-- Optional fraction and exponent parts. -/
  parseFracExp (s : List Char) : List Char × List Char :=
    let (frac, s2) :=
      match s with
      | '.' :: d :: ds =>
          if isDigit d then
            let (more, rest) := takeDigits ds
            ('.' :: d :: more, rest)
          else ([], s)
      | _ => ([], s)
    let (ex, s3) :=
      match s2 with
      | e :: tail =>
          if e == 'e' || e == 'E' then
            match tail with
            | sgn :: d :: ds =>
                if (sgn == '+' || sgn == '-') && isDigit d then
                  let (more, rest) := takeDigits ds
                  (e :: sgn :: d :: more, rest)
                else if isDigit sgn then
                  let (more, rest) := takeDigits (d :: ds)
                  (e :: sgn :: more, rest)
                else ([], s2)
            | [d] =>
                if isDigit d then (e :: [d], []) else ([], s2)
            | [] => ([], s2)
          else ([], s2)
      | [] => ([], s2)
    (frac ++ ex, s3)

mutual

/-- Parse one JSON value (no leading whitespace), RFC 8259 grammar as
accepted by `json.loads`. -/
def parseVal : Nat → List Char → Option (Json × List Char)
  | 0, _ => none
  | fuel + 1, input =>
      match input with
      | 't' :: 'r' :: 'u' :: 'e' :: rest => some (.bool true, rest)
      | 'f' :: 'a' :: 'l' :: 's' :: 'e' :: rest => some (.bool false, rest)
      | 'n' :: 'u' :: 'l' :: 'l' :: rest => some (.null, rest)
      | '"' :: rest =>
          match parseStr (rest.length + 1) [] rest with
          | some (s, rest') => some (.str s, rest')
          | none => none
      | '{' :: rest =>
          match skipWs rest with
          | '}' :: rest' => some (.obj [], rest')
          | rest' => parseMembers fuel [] rest'
      | '[' :: rest =>
          match skipWs rest with
          | ']' :: rest' => some (.arr [], rest')
          | rest' => parseElems fuel [] rest'
      | input =>
          match parseNum input with
          | some (lx, rest) => some (.num lx, rest)
          | none => none

/-- Parse the members of a JSON object, starting at a key. -/
def parseMembers : Nat → List (String × Json) → List Char → Option (Json × List Char)
  | 0, _, _ => none
  | fuel + 1, acc, input =>
      match input with
      | '"' :: rest =>
          match parseStr (rest.length + 1) [] rest with
          | some (k, rest') =>
              match skipWs rest' with
              | ':' :: rest2 =>
                  match parseVal fuel (skipWs rest2) with
                  | some (v, rest3) =>
                      match skipWs rest3 with
                      | ',' :: rest4 => parseMembers fuel (acc ++ [(k, v)]) (skipWs rest4)
                      | '}' :: rest4 => some (.obj (acc ++ [(k, v)]), rest4)
                      | _ => none
                  | none => none
              | _ => none
          | none => none
      | _ => none

/-- Parse the elements of a JSON array, starting at a value. -/
def parseElems : Nat → List Json → List Char → Option (Json × List Char)
  | 0, _, _ => none
  | fuel + 1, acc, input =>
      match parseVal fuel input with
      | some (v, rest) =>
          match skipWs rest with
          | ',' :: rest' => parseElems fuel (acc ++ [v]) (skipWs rest')
          | ']' :: rest' => some (.arr (acc ++ [v]), rest')
          | _ => none
      | none => none

end

/-- `json.loads` on a string: parse one JSON document surrounded by
optional whitespace. Raises `JSONDecodeError` (modelled by its leading
message text) on failure. -/
def json_loads (s : String) : Except String Json :=
  match parseVal (s.length + 1) (skipWs s.data) with
  | some (j, rest) =>
      if (skipWs rest).isEmpty then .ok j else .error "Extra data"
  | none => .error "Expecting value"

/-- The `\uXXXX` escape for a BMP code unit, lowercase hex as emitted by
`json.dumps` with its default `ensure_ascii=True`. -/
def uEsc (n : Nat) : List Char :=
  ['\\', 'u', hexChar ((n >>> 12) &&& 0xF), hexChar ((n >>> 8) &&& 0xF),
   hexChar ((n >>> 4) &&& 0xF), hexChar (n &&& 0xF)]

/-- Escape one character inside a JSON string literal, as `json.dumps`
does by default: the two-character escapes for quote, backslash and the
common control characters, `\uXXXX` for other control characters and for
every non-ASCII character (a supplementary-plane character becomes a
surrogate pair). -/
def escChar (c : Char) : List Char :=
  let n := c.toNat
  if c == '"' then ['\\', '"']
  else if c == '\\' then ['\\', '\\']
  else if c == '\n' then ['\\', 'n']
  else if c == '\t' then ['\\', 't']
  else if c == '\r' then ['\\', 'r']
  else if n == 8 then ['\\', 'b']
  else if n == 12 then ['\\', 'f']
  else if n < 0x20 then uEsc n
  else if n < 0x7F then [c]
  else if n < 0x10000 then uEsc n
  else
    let m := n - 0x10000
    uEsc (0xD800 + (m >>> 10)) ++ uEsc (0xDC00 + (m &&& 0x3FF))

/-- Quote and escape a string as a JSON string literal. -/
def jsonQuote (s : String) : String :=
  String.mk ('"' :: s.data.flatMap escChar ++ ['"'])

mutual

/-- `json.dumps` with its default arguments: item separator `", "`,
key separator `": "`, `ensure_ascii=True`, insertion order preserved. -/
def json_dumps : Json → String
  | .null => "null"
  | .bool true => "true"
  | .bool false => "false"
  | .num lx => lx
  | .str s => jsonQuote s
  | .arr xs => "[" ++ dumpsElems xs ++ "]"
  | .obj fs => "\x7b" ++ dumpsFields fs ++ "\x7d"

/-- Render array elements joined by `", "`. -/
def dumpsElems : List Json → String
  | [] => ""
  | [x] => json_dumps x
  | x :: xs => json_dumps x ++ ", " ++ dumpsElems xs

/-- Render object members joined by `", "`, each as `"key": value`. -/
def dumpsFields : List (String × Json) → String
  | [] => ""
  | [(k, v)] => jsonQuote k ++ ": " ++ json_dumps v
  | (k, v) :: fs => jsonQuote k ++ ": " ++ json_dumps v ++ ", " ++ dumpsFields fs

end

/-! ### Python-level access on parsed values -/

/-- The Python type name of a JSON value, for exception texts. -/
def Json.pyTypeName : Json → String
  | .null => "NoneType"
  | .bool _ => "bool"
  | .num lx =>
      if lx.contains '.' || lx.contains 'e' || lx.contains 'E' then "float" else "int"
  | .str _ => "str"
  | .arr _ => "list"
  | .obj _ => "dict"

/-- Python `value.get(key)`: `dict.get` returns the binding or `None`;
on any non-`dict` value the attribute access raises `AttributeError`. -/
def Json.pyGet (j : Json) (k : String) : Except String (Option Json) :=
  match j with
  | .obj fs => .ok (lookupLast fs k)
  | j => .error (pyQuote ++ j.pyTypeName ++ pyQuote ++ " object has no attribute " ++
                 pyQuote ++ k ++ pyQuote)

/-- Python `value[key]` with a string key: on a `dict` it returns the
binding or raises `KeyError` (whose `str` is the quoted key); on any
other value it raises `TypeError`. -/
def Json.pyIndex (j : Json) (k : String) : Except String Json :=
  match j with
  | .obj fs =>
      match lookupLast fs k with
      | some v => .ok v
      | none => .error (pyQuote ++ k ++ pyQuote)
  | .str _ => .error "string indices must be integers"
  | .arr _ => .error "list indices must be integers or slices, not str"
  | j => .error (pyQuote ++ j.pyTypeName ++ pyQuote ++ " object is not subscriptable")

/-- Python `x == "lit"` where `x` is an optional JSON value (`dict.get`
result): only a string equal to the literal compares equal; `None` and
every non-string value compare unequal. -/
def pyEqStr (x : Option Json) (lit : String) : Bool :=
  match x with
  | some (.str s) => s == lit
  | _ => false

/-! ### The Lambda event, external effects, and the handler -/

/-- The slice of the Lambda Function URL event the handler reads:
`event["body"]` (a raw string, absent when the key is missing) and
`event["headers"]` (a string-to-string dict, absent when missing). -/
structure Event where
  body : Option String
  headers : Option (List (String × String))

/-- The one field of a Python `datetime` the handler consumes: the
result of `datetime.datetime.fromisoformat(...)` is only read through
`.minute`. -/
structure PyDatetime where
  minute : Nat

/-- The external effects of `main.py`, supplied as oracles. Each returns
`Except String` where the `String` is `str(e)` of the raised exception:
* `get_parameter` — lines 11-31, the parameter-store secret fetch for
  `os.environ["HMAC_SECRET_KEY_PARAM"]` (the environment lookup folded in);
* `get_plan_json` — lines 34-53, the authenticated fetch of the plan JSON
  from `request_body["plan_json_api_url"]`;
* `fromisoformat` — `datetime.datetime.fromisoformat` on a string;
* `notify_result` — lines 75-103, the PATCH of
  `\x7bdata: \x7btype: "task-results", attributes: \x7bstatus, message\x7d\x7d\x7d`
  to `request_body["task_result_callback_url"]`. -/
structure Ctx where
  get_parameter : Except String String
  get_plan_json : Json → Except String Json
  fromisoformat : String → Except String PyDatetime
  notify_result : Json → String → String → Except String Unit

/-- Instrumentation of one handler run: the arguments of the
`verify_hmac` call (payload, signature, key), how many times
`get_plan_json` ran, and the `(status, message)` of each `notify_result`
call, in order. -/
structure Trace where
  verifyCalls : List (String × String × String)
  planCalls : Nat
  notifyCalls : List (String × String)
deriving DecidableEq

/-- The handler's return value: `statusCode` and the `json.dumps`-rendered
body. -/
structure Resp where
  statusCode : Nat
  body : String
deriving DecidableEq

/-- `datetime.datetime.fromisoformat(v)` where `v` is a JSON value:
raises `TypeError` unless `v` is a string, then parses it. -/
def pyFromisoformat (ctx : Ctx) (v : Json) : Except String PyDatetime :=
  match v with
  | .str s => ctx.fromisoformat s
  | _ => .error "fromisoformat: argument must be str"

/-- The response document built at main.py lines 93-98, 148-158 and
182-189: `\x7bdata: \x7btype: "task-results", attributes: \x7bstatus, message\x7d\x7d\x7d`. -/
def taskResultBody (status message : String) : Json :=
  .obj [("data", .obj [("type", .str "task-results"),
    ("attributes", .obj [("status", .str status), ("message", .str message)])])]

/-- The signature extraction of main.py lines 134-135:
`headers = event.get("headers", \x7b\x7d)` then
`signature = headers.get("x-tfc-task-signature", "")` — an exact,
case-sensitive dict lookup with `""` as the default. -/
def eventSignature (event : Event) : String :=
  (lookupLast (event.headers.getD []) "x-tfc-task-signature").getD ""

/-- The catch-all 500 response of main.py lines 192-200:
`\x7b"message": f"Internal error: \x7bstr(e)\x7d"\x7d`. -/
def internalError (e : String) : Resp :=
  ⟨500, json_dumps (.obj [("message", .str ("Internal error: " ++ e))])⟩

/--
`handler` (main.py lines 106-200), with the try/except materialised as
the propagation of `Except` errors into `internalError`:

1. fetch the HMAC secret (line 130);
2. `body = json.loads(event.get("body", "\x7b\x7d"))` (line 133);
3. `signature = event.get("headers", \x7b\x7d).get("x-tfc-task-signature", "")`
   (lines 134-135) — an exact, case-sensitive dict lookup;
4. `verify_hmac(event["body"], signature, hmac_key)` (line 138) — the
   subscript raises `KeyError` when the event has no body key; a `False`
   result yields the 401 response (lines 139-142);
5. the handshake branch on `task_result_enforcement_level == "test"`
   (lines 145-159);
6. plan fetch, timestamp extraction and parse (lines 162-163);
7. the minute-parity rule and messages (lines 165-173);
8. `notify_result` (lines 175-178) and the 200 response (lines 180-190).
-/
def handler (ctx : Ctx) (event : Event) : Resp × Trace :=
  let t0 : Trace := ⟨[], 0, []⟩
  match ctx.get_parameter with
  | .error e => (internalError e, t0)
  | .ok hmac_key =>
    match json_loads (event.body.getD "\x7b\x7d") with
    | .error e => (internalError e, t0)
    | .ok body =>
      let signature := eventSignature event
      match event.body with
      | none => (internalError (pyQuote ++ "body" ++ pyQuote), t0)
      | some raw =>
        let t1 : Trace := { t0 with verifyCalls := [(raw, signature, hmac_key)] }
        match verify_hmac raw signature hmac_key with
        | .error e => (internalError e, t1)
        | .ok ok =>
          if !ok then
            (⟨401, json_dumps (.obj [("message", .str "Invalid signature")])⟩, t1)
          else
            match body.pyGet "task_result_enforcement_level" with
            | .error e => (internalError e, t1)
            | .ok lvl =>
              if pyEqStr lvl "test" then
                (⟨200, json_dumps (taskResultBody "passed" "Configuration successful")⟩, t1)
              else
                let t2 : Trace := { t1 with planCalls := 1 }
                match ctx.get_plan_json body with
                | .error e => (internalError e, t2)
                | .ok plan_json =>
                  match plan_json.pyIndex "timestamp" with
                  | .error e => (internalError e, t2)
                  | .ok tsv =>
                    match pyFromisoformat ctx tsv with
                    | .error e => (internalError e, t2)
                    | .ok plan_timestamp =>
                      let validation_passed := plan_timestamp.minute % 2 == 0
                      let message :=
                        if validation_passed then "Validation passed" else "Validation failed"
                      let status := if validation_passed then "passed" else "failed"
                      let t3 : Trace := { t2 with notifyCalls := [(status, message)] }
                      match ctx.notify_result body status message with
                      | .error e => (internalError e, t3)
                      | .ok _ => (⟨200, json_dumps (taskResultBody status message)⟩, t3)

/-! ### Basic facts about the digest -/

/-- `wordToBytes k x` has `k` bytes. -/
theorem wordToBytes_length (k x : Nat) : (wordToBytes k x).length = k := by
  induction k with
  | zero => rfl
  | succ k ih => simp [wordToBytes, ih]

/-- Every entry of `wordToBytes` is a byte. -/
theorem wordToBytes_lt (k x : Nat) : ∀ b ∈ wordToBytes k x, b < 256 := by
  induction k with
  | zero => simp [wordToBytes]
  | succ k ih =>
    simp only [wordToBytes, List.mem_cons]
    rintro b (rfl | hb)
    · exact Nat.lt_succ_of_le Nat.and_le_right
    · exact ih b hb

/-- A compression round preserves the state width. -/
theorem sha512Round_length (st : List Nat) (kw : Nat × Nat) :
    (sha512Round st kw).length = st.length := by
  unfold sha512Round
  split <;> simp

/-- Folding compression rounds preserves the state width. -/
theorem foldl_round_length (l : List (Nat × Nat)) :
    ∀ st : List Nat, (l.foldl sha512Round st).length = st.length := by
  induction l with
  | nil => intro st; rfl
  | cons p l ih => intro st; rw [List.foldl_cons, ih, sha512Round_length]

/-- A block step keeps the running hash at 8 words. -/
theorem sha512Block_length (hv blk : List Nat) (h : hv.length = 8) :
    (sha512Block hv blk).length = 8 := by
  unfold sha512Block
  simp [foldl_round_length, h]

/-- Folding block steps keeps the running hash at 8 words. -/
theorem foldl_block_length (bs : List (List Nat)) :
    ∀ hv : List Nat, hv.length = 8 → (bs.foldl sha512Block hv).length = 8 := by
  induction bs with
  | nil => intro hv h; simpa using h
  | cons b bs ih => intro hv h; rw [List.foldl_cons]; exact ih _ (sha512Block_length _ _ h)

/-- Serialising 8 words big-endian gives `8 * 8` bytes. -/
theorem flatMap_wordToBytes_length (l : List Nat) :
    (l.flatMap (wordToBytes 8)).length = 8 * l.length := by
  induction l with
  | nil => rfl
  | cons a l ih => simp [List.flatMap_cons, wordToBytes_length, ih, Nat.mul_succ]; omega

/-- A SHA-512 digest is 64 bytes long. -/
theorem sha512_length (m : List Nat) : (sha512 m).length = 64 := by
  unfold sha512
  rw [flatMap_wordToBytes_length, foldl_block_length _ _ (by rfl)]

/-- Every entry of a SHA-512 digest is a byte. -/
theorem sha512_lt (m : List Nat) : ∀ b ∈ sha512 m, b < 256 := by
  unfold sha512
  intro b hb
  simp only [List.mem_flatMap] at hb
  obtain ⟨w, _, hbw⟩ := hb
  exact wordToBytes_lt 8 w b hbw

/-- Hex characters of values below 16 are ASCII. -/
theorem hexChar_toNat_lt (n : Nat) (h : n < 16) : (hexChar n).toNat < 128 := by
  interval_cases n <;> decide

/-- The hex rendering of a byte list is an ASCII string. -/
theorem strIsAscii_bytesToHex (bs : List Nat) (h : ∀ b ∈ bs, b < 256) :
    strIsAscii (bytesToHex bs) = true := by
  unfold strIsAscii bytesToHex
  simp only [List.all_eq_true, List.mem_flatMap, List.mem_cons, List.mem_singleton,
    decide_eq_true_eq]
  rintro c ⟨b, hb, (rfl | rfl | hfalse)⟩
  · refine hexChar_toNat_lt _ ?_
    have := h b hb
    rw [Nat.shiftRight_eq_div_pow]
    omega
  · exact hexChar_toNat_lt _ (Nat.lt_succ_of_le Nat.and_le_right)
  · cases hfalse

/-- The hex HMAC digest is an ASCII string. -/
theorem strIsAscii_hmacHex (secret payload : String) :
    strIsAscii (hmacHex secret payload) = true := by
  unfold hmacHex hmacSha512
  exact strIsAscii_bytesToHex _ (sha512_lt _)

/-- The hex rendering of a byte list has two characters per byte. -/
theorem bytesToHex_length (bs : List Nat) : (bytesToHex bs).length = 2 * bs.length := by
  unfold bytesToHex
  show (bs.flatMap _).length = 2 * bs.length
  induction bs with
  | nil => rfl
  | cons b bs ih => simp only [List.flatMap_cons, List.length_append, ih]; simp; omega

/-- The hex HMAC-SHA512 digest always has 128 characters. -/
theorem hmacHex_length (secret payload : String) : (hmacHex secret payload).length = 128 := by
  unfold hmacHex hmacSha512
  rw [bytesToHex_length, sha512_length]

/-- The hex HMAC-SHA512 digest is never the empty string. -/
theorem hmacHex_ne_empty (secret payload : String) : hmacHex secret payload ≠ "" := by
  intro h
  have hl := hmacHex_length secret payload
  rw [h] at hl
  simp at hl

/-! ### Behaviour of `verify_hmac` -/

/-- On an ASCII signature, `verify_hmac` returns whether the computed
digest equals the signature. -/
theorem verify_hmac_ascii (payload sig secret : String) (h : strIsAscii sig = true) :
    verify_hmac payload sig secret = .ok (hmacHex secret payload == sig) := by
  unfold verify_hmac
  rw [h]
  simp

/-- `verify_hmac` accepts the genuine digest. -/
theorem verify_hmac_true (payload secret : String) :
    verify_hmac payload (hmacHex secret payload) secret = .ok true := by
  rw [verify_hmac_ascii _ _ _ (strIsAscii_hmacHex secret payload)]
  simp

/-- `verify_hmac` rejects every ASCII signature other than the digest. -/
theorem verify_hmac_false (payload sig secret : String) (h : strIsAscii sig = true)
    (hne : sig ≠ hmacHex secret payload) :
    verify_hmac payload sig secret = .ok false := by
  rw [verify_hmac_ascii _ _ _ h]
  simp only [Except.ok.injEq, beq_eq_false_iff_ne, ne_eq]
  exact Ne.symm hne

/-- A failed verification produces the 401 response and no further calls
(main.py lines 138-142). -/
theorem handler_401 (ctx : Ctx) (event : Event) (key raw sig : String) (bodyJ : Json)
    (hparam : ctx.get_parameter = .ok key)
    (hbody : event.body = some raw)
    (hparse : json_loads raw = .ok bodyJ)
    (hsig : eventSignature event = sig)
    (hver : verify_hmac raw sig key = .ok false) :
    handler ctx event =
      (⟨401, json_dumps (.obj [("message", .str "Invalid signature")])⟩,
       ⟨[(raw, sig, key)], 0, []⟩) := by
  unfold handler
  rw [hparam, hbody]
  simp only [Option.getD_some, hparse, hsig, hver, Bool.not_false, if_true]

/-! ### Concrete fixtures -/

/-- `hmac.new(b"k", b"\x7b\x7d", hashlib.sha512).hexdigest()`. -/
def digEmptyObj : String :=
  "aa566d059187e09f9e0557033a5557482a52a4aea29aee7a502f1301c945849b04041b4151da85d55f45276cc4b039c810b0734b501ebd737a689a59c39d5749"

/-- The handshake request body used by the fixtures. -/
def rawHandshake : String := "\x7b\"task_result_enforcement_level\": \"test\"\x7d"

/-- `hmac.new(b"k", rawHandshake.encode(), hashlib.sha512).hexdigest()`. -/
def digHandshake : String :=
  "ea7b330a15eb94553eb238f430f917d4fb8e3f7381b5960e841eb016db192ac5aac054885fe7ae66547313b96d26b27f5476945466b004c05346c81c0d366881"

/-- A one-character non-ASCII string (U+00E9). -/
def nonAsciiSig : String := String.mk [Char.ofNat 233]

/-- A context whose secret is `"k"`, whose plan fetch yields a document
with an even-minute timestamp, and whose notification succeeds. -/
def ctxBase : Ctx where
  get_parameter := .ok "k"
  get_plan_json := fun _ => .ok (.obj [("timestamp", .str "2024-01-01T10:14:00+00:00")])
  fromisoformat := fun s =>
    if s == "2024-01-01T10:14:00+00:00" then .ok ⟨14⟩
    else .error "Invalid isoformat string"
  notify_result := fun _ _ _ => .ok ()

/-- A second context: same minute (14) reached through a different plan
document and timestamp text. -/
def ctxOtherPlan : Ctx where
  get_parameter := .ok "k"
  get_plan_json := fun _ => .ok (.obj [("timestamp", .str "2025-12-31T23:14:59+00:00")])
  fromisoformat := fun s =>
    if s == "2025-12-31T23:14:59+00:00" then .ok ⟨14⟩
    else .error "Invalid isoformat string"
  notify_result := fun _ _ _ => .error "upstream unavailable"

/-- A context whose plan fetch fails. -/
def ctxPlanFails : Ctx where
  get_parameter := .ok "k"
  get_plan_json := fun _ => .error "HTTP Error 500: Internal Server Error"
  fromisoformat := fun _ => .error "Invalid isoformat string"
  notify_result := fun _ _ _ => .ok ()

/-- A context whose result notification fails. -/
def ctxNotifyFails : Ctx where
  get_parameter := .ok "k"
  get_plan_json := fun _ => .ok (.obj [("timestamp", .str "2024-01-01T10:14:00+00:00")])
  fromisoformat := fun s =>
    if s == "2024-01-01T10:14:00+00:00" then .ok ⟨14⟩
    else .error "Invalid isoformat string"
  notify_result := fun _ _ _ => .error "HTTP Error 401: Unauthorized"

/-- An event with body `"\x7b\x7d"` and a correct signature. -/
def eventEmptyObj : Event :=
  ⟨some "\x7b\x7d", some [("x-tfc-task-signature", digEmptyObj)]⟩

/-- The handshake event with a correct signature. -/
def eventHandshake : Event :=
  ⟨some rawHandshake, some [("x-tfc-task-signature", digHandshake)]⟩

/-- An event with body `"\x7b\x7d"` and an empty (wrong) signature. -/
def eventBadSig : Event :=
  ⟨some "\x7b\x7d", some [("x-tfc-task-signature", "")]⟩

/-- An event whose body is not valid JSON, with an empty (wrong)
signature. -/
def eventInvalidJson : Event :=
  ⟨some "x", some [("x-tfc-task-signature", "")]⟩

/-- An event carrying the correct signature, but under a capitalised
header name. -/
def eventCapsHeader : Event :=
  ⟨some "\x7b\x7d", some [("X-TFC-Task-Signature", digEmptyObj)]⟩

/-- An event with no `"body"` key. -/
def eventNoBody : Event := ⟨none, some []⟩

/-- An event with body `"\x7b\x7d"` whose signature header value is the
non-ASCII string `nonAsciiSig`. -/
def eventNonAsciiSig : Event :=
  ⟨some "\x7b\x7d", some [("x-tfc-task-signature", nonAsciiSig)]⟩

/-! ### Claims -/

/-- **C1, counterexample.** Two concrete mismatched-signature events are
answered 500 rather than 401. First, for the event with raw body `"x"`
(not valid JSON) and an empty signature header, the secret resolves to
`"k"` and the signature differs from the hex HMAC-SHA512 digest of the
raw body, yet `json.loads` at line 133 raises before the signature check
at line 138 ever runs. Second, for the event with body `"\x7b\x7d"` and
a non-ASCII signature header value (which also differs from the ASCII
digest), `hmac.compare_digest` raises `TypeError`, again caught as a
500. -/
theorem C1_counterexample :
    (ctxBase.get_parameter = .ok "k" ∧
     eventInvalidJson.body = some "x" ∧
     eventSignature eventInvalidJson ≠ hmacHex "k" "x" ∧
     (handler ctxBase eventInvalidJson).1.statusCode = 500) ∧
    (eventNonAsciiSig.body = some "\x7b\x7d" ∧
     eventSignature eventNonAsciiSig ≠ hmacHex "k" "\x7b\x7d" ∧
     (handler ctxBase eventNonAsciiSig).1.statusCode = 500) := by
  refine ⟨⟨rfl, rfl, ?_, rfl⟩, rfl, ?_, rfl⟩
  · have h : eventSignature eventInvalidJson = "" := rfl
    rw [h]
    exact Ne.symm (hmacHex_ne_empty "k" "x")
  · intro h
    have ha := strIsAscii_hmacHex "k" "\x7b\x7d"
    rw [← h] at ha
    exact absurd ha (by decide)

/-- **C1 (amended).** Provided the secret resolves, the event has a raw
body that parses as JSON, and the extracted signature header value is an
ASCII string different from the hex HMAC-SHA512 digest of the raw body
under the resolved secret, the handler answers 401 with body
`\x7b"message": "Invalid signature"\x7d`, and neither `get_plan_json`
nor `notify_result` is invoked for the request. -/
theorem C1_bad_signature_401 (ctx : Ctx) (event : Event) (key raw sig : String) (bodyJ : Json)
    (hparam : ctx.get_parameter = .ok key)
    (hbody : event.body = some raw)
    (hparse : json_loads raw = .ok bodyJ)
    (hsig : eventSignature event = sig)
    (hascii : strIsAscii sig = true)
    (hne : sig ≠ hmacHex key raw) :
    handler ctx event =
      (⟨401, json_dumps (.obj [("message", .str "Invalid signature")])⟩,
       ⟨[(raw, sig, key)], 0, []⟩) :=
  handler_401 ctx event key raw sig bodyJ hparam hbody hparse hsig
    (verify_hmac_false raw sig key hascii hne)

/-- Witness for C1: the concrete empty-signature event is answered 401
with no plan fetch and no notification. -/
theorem C1_bad_signature_401_witness :
    handler ctxBase eventBadSig =
      (⟨401, json_dumps (.obj [("message", .str "Invalid signature")])⟩,
       ⟨[("\x7b\x7d", "", "k")], 0, []⟩) :=
  C1_bad_signature_401 ctxBase eventBadSig "k" "\x7b\x7d" "" (.obj [])
    rfl rfl rfl rfl rfl (Ne.symm (hmacHex_ne_empty "k" "\x7b\x7d"))

/-- **C2, counterexample.** The one-character non-ASCII signature
`U+00E9` differs from the hex digest of `"x"` under `"k"` (the digest is
ASCII), yet `verify_hmac` does not return `False`: `hmac.compare_digest`
raises `TypeError` on a non-ASCII `str`. -/
theorem C2_counterexample :
    nonAsciiSig ≠ hmacHex "k" "x" ∧
    verify_hmac "x" nonAsciiSig "k" =
      .error "comparing strings with non-ASCII characters is not supported" := by
  constructor
  · intro h
    have ha := strIsAscii_hmacHex "k" "x"
    rw [← h] at ha
    exact absurd ha (by decide)
  · rfl

/-- **C2 (amended).** `verify_hmac(body, sig, secret)` returns `True`
when `sig` is the hex HMAC-SHA512 digest of `body` keyed by `secret`,
returns `False` for every ASCII `sig` different from that digest, and
raises `TypeError` for every non-ASCII `sig`. -/
theorem C2_verify_hmac_correct (body secret sig : String) :
    verify_hmac body (hmacHex secret body) secret = .ok true ∧
    (strIsAscii sig = true → sig ≠ hmacHex secret body →
      verify_hmac body sig secret = .ok false) ∧
    (strIsAscii sig = false →
      verify_hmac body sig secret =
        .error "comparing strings with non-ASCII characters is not supported") := by
  refine ⟨verify_hmac_true body secret, fun ha hne => verify_hmac_false body sig secret ha hne,
    fun ha => ?_⟩
  unfold verify_hmac
  rw [ha]
  simp

/-- Witness for C2 at `body = "x"`, `secret = "k"`: the digest verifies,
the empty string is rejected, and the non-ASCII string raises. -/
theorem C2_verify_hmac_correct_witness :
    verify_hmac "x" (hmacHex "k" "x") "k" = .ok true ∧
    verify_hmac "x" "" "k" = .ok false ∧
    verify_hmac "x" nonAsciiSig "k" =
      .error "comparing strings with non-ASCII characters is not supported" :=
  ⟨(C2_verify_hmac_correct "x" "k" "").1,
   (C2_verify_hmac_correct "x" "k" "").2.1 rfl (Ne.symm (hmacHex_ne_empty "k" "x")),
   (C2_verify_hmac_correct "x" "k" nonAsciiSig).2.2 rfl⟩

/-- **C5, counterexample.** The correct digest sits in the headers under
the capitalised name `X-TFC-Task-Signature` — verification with that
value succeeds — but the handler's case-sensitive
`headers.get("x-tfc-task-signature", "")` yields the empty string, so
the request is answered 401 rather than proceeding. -/
theorem C5_counterexample :
    lookupLast (eventCapsHeader.headers.getD []) "X-TFC-Task-Signature"
      = some (hmacHex "k" "\x7b\x7d") ∧
    verify_hmac "\x7b\x7d" (hmacHex "k" "\x7b\x7d") "k" = .ok true ∧
    eventSignature eventCapsHeader = "" ∧
    (handler ctxBase eventCapsHeader).1.statusCode = 401 := by
  exact ⟨rfl, verify_hmac_true "\x7b\x7d" "k", rfl, rfl⟩

/-- **C5 (amended).** The signature header lookup is case-sensitive on
the exact lowercase name `x-tfc-task-signature`. Whenever that exact key
is absent — whatever other capitalisations are present — the signature
used is the empty string, which fails verification for every body and
secret, and (provided the secret resolves and the body parses) the
request is answered 401 with no plan fetch and no notification. -/
theorem C5_signature_lookup (ctx : Ctx) (event : Event) (key raw : String) (bodyJ : Json)
    (hparam : ctx.get_parameter = .ok key)
    (hbody : event.body = some raw)
    (hparse : json_loads raw = .ok bodyJ)
    (hmiss : lookupLast (event.headers.getD []) "x-tfc-task-signature" = none) :
    eventSignature event = "" ∧
    handler ctx event =
      (⟨401, json_dumps (.obj [("message", .str "Invalid signature")])⟩,
       ⟨[(raw, "", key)], 0, []⟩) := by
  have hsig : eventSignature event = "" := by
    unfold eventSignature
    rw [hmiss]
    rfl
  exact ⟨hsig, handler_401 ctx event key raw "" bodyJ hparam hbody hparse hsig
    (verify_hmac_false raw "" key rfl (Ne.symm (hmacHex_ne_empty key raw)))⟩

/-- Witness for C5: the event whose only signature header is the
capitalised `X-TFC-Task-Signature` is treated as unsigned and answered
401. -/
theorem C5_signature_lookup_witness :
    eventSignature eventCapsHeader = "" ∧
    handler ctxBase eventCapsHeader =
      (⟨401, json_dumps (.obj [("message", .str "Invalid signature")])⟩,
       ⟨[("\x7b\x7d", "", "k")], 0, []⟩) :=
  C5_signature_lookup ctxBase eventCapsHeader "k" "\x7b\x7d" (.obj []) rfl rfl rfl rfl

/-- **C10.** An event with no `"body"` key is always answered 500 —
never 401 or 200 — and no verification, plan fetch or notification
happens: body parsing substitutes `"\x7b\x7d"`, but the raw-body access
`event["body"]` at line 138 raises `KeyError`, caught by the top-level
handler. -/
theorem C10_missing_body_500 (ctx : Ctx) (event : Event) (hbody : event.body = none) :
    (handler ctx event).1.statusCode = 500 ∧ (handler ctx event).2 = ⟨[], 0, []⟩ := by
  unfold handler
  rw [hbody]
  cases hp : ctx.get_parameter with
  | error e => exact ⟨rfl, rfl⟩
  | ok key => exact ⟨rfl, rfl⟩

/-- Witness for C10: the concrete body-less event yields a 500 and an
empty trace. -/
theorem C10_missing_body_500_witness :
    (handler ctxBase eventNoBody).1.statusCode = 500 ∧
    (handler ctxBase eventNoBody).2 = ⟨[], 0, []⟩ :=
  C10_missing_body_500 ctxBase eventNoBody rfl

/-- **C3.** A signature-verified request whose parsed body has
`task_result_enforcement_level` equal to the string `"test"` is answered
200 with attributes `status: "passed"`, `message: "Configuration
successful"`, and neither `get_plan_json` nor `notify_result` is invoked
for the request. -/
theorem C3_handshake_200 (ctx : Ctx) (event : Event) (key raw sig : String) (bodyJ : Json)
    (hparam : ctx.get_parameter = .ok key)
    (hbody : event.body = some raw)
    (hparse : json_loads raw = .ok bodyJ)
    (hsig : eventSignature event = sig)
    (hver : verify_hmac raw sig key = .ok true)
    (hlvl : bodyJ.pyGet "task_result_enforcement_level" = .ok (some (.str "test"))) :
    handler ctx event =
      (⟨200, json_dumps (taskResultBody "passed" "Configuration successful")⟩,
       ⟨[(raw, sig, key)], 0, []⟩) := by
  unfold handler
  rw [hparam, hbody]
  simp only [Option.getD_some, hparse, hsig, hver, Bool.not_true, Bool.false_eq_true,
    if_false, hlvl, pyEqStr, beq_self_eq_true, if_true]

/-- Witness for C3: the concrete handshake event with a correct
signature. -/
theorem C3_handshake_200_witness :
    handler ctxBase eventHandshake =
      (⟨200, json_dumps (taskResultBody "passed" "Configuration successful")⟩,
       ⟨[(rawHandshake, digHandshake, "k")], 0, []⟩) :=
  C3_handshake_200 ctxBase eventHandshake "k" rawHandshake digHandshake
    (.obj [("task_result_enforcement_level", .str "test")]) rfl rfl rfl rfl rfl rfl

/-- **C4.** On a signature-verified non-handshake request whose fetched
plan document has a parsable timestamp with minute `m`, the notifier is
called with `("passed", "Validation passed")` exactly when `m` is even
and `("failed", "Validation failed")` when `m` is odd, and the 200
response echoes the same status and message in the
`\x7bdata: \x7btype: "task-results", attributes: ...\x7d\x7d` shape. -/
theorem C4_validation_parity (ctx : Ctx) (event : Event) (key raw sig ts : String)
    (bodyJ plan : Json) (lvl : Option Json) (m : Nat)
    (hparam : ctx.get_parameter = .ok key)
    (hbody : event.body = some raw)
    (hparse : json_loads raw = .ok bodyJ)
    (hsig : eventSignature event = sig)
    (hver : verify_hmac raw sig key = .ok true)
    (hlvl : bodyJ.pyGet "task_result_enforcement_level" = .ok lvl)
    (hnotest : pyEqStr lvl "test" = false)
    (hplan : ctx.get_plan_json bodyJ = .ok plan)
    (hts : plan.pyIndex "timestamp" = .ok (.str ts))
    (hiso : ctx.fromisoformat ts = .ok ⟨m⟩)
    (hnot : ctx.notify_result bodyJ (if m % 2 = 0 then "passed" else "failed")
              (if m % 2 = 0 then "Validation passed" else "Validation failed") = .ok ()) :
    handler ctx event =
      (⟨200, json_dumps (taskResultBody (if m % 2 = 0 then "passed" else "failed")
          (if m % 2 = 0 then "Validation passed" else "Validation failed"))⟩,
       ⟨[(raw, sig, key)], 1, [(if m % 2 = 0 then "passed" else "failed",
          if m % 2 = 0 then "Validation passed" else "Validation failed")]⟩) := by
  unfold handler
  rw [hparam, hbody]
  simp only [Option.getD_some, hparse, hsig, hver, hlvl, hnotest, hplan, hts,
    pyFromisoformat, hiso, Bool.not_true, Bool.false_eq_true, if_false, beq_iff_eq]
  rw [hnot]

/-- Witness for C4: minute 14 (even) yields a "passed" notification and
a 200 response echoing it. -/
theorem C4_validation_parity_witness :
    handler ctxBase eventEmptyObj =
      (⟨200, json_dumps (taskResultBody "passed" "Validation passed")⟩,
       ⟨[("\x7b\x7d", digEmptyObj, "k")], 1, [("passed", "Validation passed")]⟩) := by
  have h := C4_validation_parity ctxBase eventEmptyObj "k" "\x7b\x7d" digEmptyObj
    "2024-01-01T10:14:00+00:00" (.obj []) (.obj [("timestamp", .str "2024-01-01T10:14:00+00:00")])
    none 14 rfl rfl rfl rfl rfl rfl rfl rfl rfl rfl rfl
  simpa using h

/-- **C6.** The payload string of every `verify_hmac` call the handler
makes is exactly the raw body string of the event as received (never a
re-serialisation of the parsed JSON object). -/
theorem C6_raw_body_payload (ctx : Ctx) (event : Event) (c : String × String × String)
    (hc : c ∈ (handler ctx event).2.verifyCalls) :
    some c.1 = event.body := by
  unfold handler at hc
  dsimp only at hc
  repeat' split at hc
  all_goals simp_all

/-- Witness for C6: the raw body `"\x7b\x7d"` of the concrete
bad-signature run is the payload of its one verify call. -/
theorem C6_raw_body_payload_witness :
    some "\x7b\x7d" = eventBadSig.body :=
  C6_raw_body_payload ctxBase eventBadSig ("\x7b\x7d", "", "k") (by decide)

/-- **C7.** On a signature-verified non-handshake request whose plan
fetch raises, the handler answers 500 with body
`\x7b"message": "Internal error: <description>"\x7d` and `notify_result`
is not invoked. -/
theorem C7_plan_failure_500 (ctx : Ctx) (event : Event) (key raw sig e : String)
    (bodyJ : Json) (lvl : Option Json)
    (hparam : ctx.get_parameter = .ok key)
    (hbody : event.body = some raw)
    (hparse : json_loads raw = .ok bodyJ)
    (hsig : eventSignature event = sig)
    (hver : verify_hmac raw sig key = .ok true)
    (hlvl : bodyJ.pyGet "task_result_enforcement_level" = .ok lvl)
    (hnotest : pyEqStr lvl "test" = false)
    (hplan : ctx.get_plan_json bodyJ = .error e) :
    handler ctx event =
      (⟨500, json_dumps (.obj [("message", .str ("Internal error: " ++ e))])⟩,
       ⟨[(raw, sig, key)], 1, []⟩) := by
  unfold handler internalError
  rw [hparam, hbody]
  simp only [Option.getD_some, hparse, hsig, hver, hlvl, hnotest, hplan,
    Bool.not_true, Bool.false_eq_true, if_false]

/-- Witness for C7: a failing plan fetch yields a 500 with the raised
description and an empty notification list. -/
theorem C7_plan_failure_500_witness :
    handler ctxPlanFails eventEmptyObj =
      (⟨500, json_dumps (.obj [("message",
          .str "Internal error: HTTP Error 500: Internal Server Error")])⟩,
       ⟨[("\x7b\x7d", digEmptyObj, "k")], 1, []⟩) := by
  have h := C7_plan_failure_500 ctxPlanFails eventEmptyObj "k" "\x7b\x7d" digEmptyObj
    "HTTP Error 500: Internal Server Error" (.obj []) none rfl rfl rfl rfl rfl rfl rfl rfl
  simpa using h

/-- **C8.** On a signature-verified non-handshake request whose result
notification raises, the handler answers 500 with body
`\x7b"message": "Internal error: <description>"\x7d` instead of the 200
validation response (the notification was attempted once). -/
theorem C8_notify_failure_500 (ctx : Ctx) (event : Event) (key raw sig ts e : String)
    (bodyJ plan : Json) (lvl : Option Json) (m : Nat)
    (hparam : ctx.get_parameter = .ok key)
    (hbody : event.body = some raw)
    (hparse : json_loads raw = .ok bodyJ)
    (hsig : eventSignature event = sig)
    (hver : verify_hmac raw sig key = .ok true)
    (hlvl : bodyJ.pyGet "task_result_enforcement_level" = .ok lvl)
    (hnotest : pyEqStr lvl "test" = false)
    (hplan : ctx.get_plan_json bodyJ = .ok plan)
    (hts : plan.pyIndex "timestamp" = .ok (.str ts))
    (hiso : ctx.fromisoformat ts = .ok ⟨m⟩)
    (hnot : ctx.notify_result bodyJ (if m % 2 = 0 then "passed" else "failed")
              (if m % 2 = 0 then "Validation passed" else "Validation failed") = .error e) :
    handler ctx event =
      (⟨500, json_dumps (.obj [("message", .str ("Internal error: " ++ e))])⟩,
       ⟨[(raw, sig, key)], 1, [(if m % 2 = 0 then "passed" else "failed",
          if m % 2 = 0 then "Validation passed" else "Validation failed")]⟩) := by
  unfold handler internalError
  rw [hparam, hbody]
  simp only [Option.getD_some, hparse, hsig, hver, hlvl, hnotest, hplan, hts,
    pyFromisoformat, hiso, Bool.not_true, Bool.false_eq_true, if_false, beq_iff_eq]
  rw [hnot]

/-- Witness for C8: a failing notification turns an even-minute
validation into a 500 carrying the raised description. -/
theorem C8_notify_failure_500_witness :
    handler ctxNotifyFails eventEmptyObj =
      (⟨500, json_dumps (.obj [("message",
          .str "Internal error: HTTP Error 401: Unauthorized")])⟩,
       ⟨[("\x7b\x7d", digEmptyObj, "k")], 1, [("passed", "Validation passed")]⟩) := by
  have h := C8_notify_failure_500 ctxNotifyFails eventEmptyObj "k" "\x7b\x7d" digEmptyObj
    "2024-01-01T10:14:00+00:00" "HTTP Error 401: Unauthorized" (.obj [])
    (.obj [("timestamp", .str "2024-01-01T10:14:00+00:00")]) none 14
    rfl rfl rfl rfl rfl rfl rfl rfl rfl rfl rfl
  simpa using h

/-- Once a run reaches the validation step with parsed minute `m`, its
trace is exactly one verify call, one plan fetch, and one notification
whose status and message are determined by the parity of `m`, whatever
the notification outcome. -/
theorem handler_validation_trace (ctx : Ctx) (event : Event) (key raw sig ts : String)
    (bodyJ plan : Json) (lvl : Option Json) (m : Nat)
    (hparam : ctx.get_parameter = .ok key)
    (hbody : event.body = some raw)
    (hparse : json_loads raw = .ok bodyJ)
    (hsig : eventSignature event = sig)
    (hver : verify_hmac raw sig key = .ok true)
    (hlvl : bodyJ.pyGet "task_result_enforcement_level" = .ok lvl)
    (hnotest : pyEqStr lvl "test" = false)
    (hplan : ctx.get_plan_json bodyJ = .ok plan)
    (hts : plan.pyIndex "timestamp" = .ok (.str ts))
    (hiso : ctx.fromisoformat ts = .ok ⟨m⟩) :
    (handler ctx event).2 =
      ⟨[(raw, sig, key)], 1, [(if m % 2 = 0 then "passed" else "failed",
         if m % 2 = 0 then "Validation passed" else "Validation failed")]⟩ := by
  unfold handler
  rw [hparam, hbody]
  simp only [Option.getD_some, hparse, hsig, hver, hlvl, hnotest, hplan, hts,
    pyFromisoformat, hiso, Bool.not_true, Bool.false_eq_true, if_false, beq_iff_eq]
  split <;> rfl

/-- **C9.** The pass/fail classification and the `(status, message)`
sent to the notifier are a pure function of the plan timestamp's parsed
minute: any two runs — even under different environments, bodies and
signatures — that reach validation with equal minutes produce identical
notifier arguments, namely the parity-determined pair. -/
theorem C9_classification_deterministic
    (ctx1 ctx2 : Ctx) (e1 e2 : Event) (key1 key2 raw1 raw2 sig1 sig2 ts1 ts2 : String)
    (b1 b2 p1 p2 : Json) (l1 l2 : Option Json) (m1 m2 : Nat)
    (hparam1 : ctx1.get_parameter = .ok key1) (hbody1 : e1.body = some raw1)
    (hparse1 : json_loads raw1 = .ok b1) (hsig1 : eventSignature e1 = sig1)
    (hver1 : verify_hmac raw1 sig1 key1 = .ok true)
    (hlvl1 : b1.pyGet "task_result_enforcement_level" = .ok l1)
    (hnotest1 : pyEqStr l1 "test" = false)
    (hplan1 : ctx1.get_plan_json b1 = .ok p1)
    (hts1 : p1.pyIndex "timestamp" = .ok (.str ts1))
    (hiso1 : ctx1.fromisoformat ts1 = .ok ⟨m1⟩)
    (hparam2 : ctx2.get_parameter = .ok key2) (hbody2 : e2.body = some raw2)
    (hparse2 : json_loads raw2 = .ok b2) (hsig2 : eventSignature e2 = sig2)
    (hver2 : verify_hmac raw2 sig2 key2 = .ok true)
    (hlvl2 : b2.pyGet "task_result_enforcement_level" = .ok l2)
    (hnotest2 : pyEqStr l2 "test" = false)
    (hplan2 : ctx2.get_plan_json b2 = .ok p2)
    (hts2 : p2.pyIndex "timestamp" = .ok (.str ts2))
    (hiso2 : ctx2.fromisoformat ts2 = .ok ⟨m2⟩)
    (hm : m1 = m2) :
    (handler ctx1 e1).2.notifyCalls = (handler ctx2 e2).2.notifyCalls ∧
    (handler ctx1 e1).2.notifyCalls =
      [(if m1 % 2 = 0 then "passed" else "failed",
        if m1 % 2 = 0 then "Validation passed" else "Validation failed")] := by
  subst hm
  have h1 := handler_validation_trace ctx1 e1 key1 raw1 sig1 ts1 b1 p1 l1 m1
    hparam1 hbody1 hparse1 hsig1 hver1 hlvl1 hnotest1 hplan1 hts1 hiso1
  have h2 := handler_validation_trace ctx2 e2 key2 raw2 sig2 ts2 b2 p2 l2 m1
    hparam2 hbody2 hparse2 hsig2 hver2 hlvl2 hnotest2 hplan2 hts2 hiso2
  rw [h1, h2]
  exact ⟨rfl, rfl⟩

/-- Witness for C9: two runs under different environments (different
plan documents and timestamp texts, one failing notifier) but the same
minute 14 record identical notifier arguments. -/
theorem C9_classification_deterministic_witness :
    (handler ctxBase eventEmptyObj).2.notifyCalls
      = (handler ctxOtherPlan eventEmptyObj).2.notifyCalls ∧
    (handler ctxBase eventEmptyObj).2.notifyCalls = [("passed", "Validation passed")] := by
  have h := C9_classification_deterministic ctxBase ctxOtherPlan eventEmptyObj eventEmptyObj
    "k" "k" "\x7b\x7d" "\x7b\x7d" digEmptyObj digEmptyObj
    "2024-01-01T10:14:00+00:00" "2025-12-31T23:14:59+00:00"
    (.obj []) (.obj []) (.obj [("timestamp", .str "2024-01-01T10:14:00+00:00")])
    (.obj [("timestamp", .str "2025-12-31T23:14:59+00:00")]) none none 14 14
    rfl rfl rfl rfl rfl rfl rfl rfl rfl rfl
    rfl rfl rfl rfl rfl rfl rfl rfl rfl rfl rfl
  simpa using h
